import Mathlib

/-!
Shallow embedding of the Time and Violation Enforcement Core of the
ProveIt student frontend.

Embedded source files:
* `src/components/QuizTimer.tsx` — deadline tracker (`QuizTimer`, `updateTimer`);
* `src/hooks/useLockdown.ts` — violation monitor (`useLockdown`, `addViolation`,
  `triggerAutoSubmit`, `startCountdown`, `clearCountdown`, the event handlers,
  `detectMobileDevice`);
* `src/pages/LockdownQuiz.tsx` — mount behaviour of the consuming view.

Modelling conventions:
* Wall-clock instants (`Date.now()`, `new Date(x).getTime()`) are natural
  numbers counting milliseconds.  The `toISOString()` timestamp stored in a
  violation record is abstracted to the millisecond clock value: no property
  below depends on its textual format.
* JavaScript numbers in the arithmetic below stay within the 53-bit exact
  range, and `Math.floor` / `Math.ceil` of an exact quotient of integers are
  embedded as integer floor and ceiling division on `Int` (with the rational
  characterisations proved below).
* React refs (`useRef`) hold mutable cells updated synchronously; each ref is
  one field of the explicit state record.  React state setters (`useState`)
  are also fields: updates are applied in program order, which matches the
  order in which queued updater functions run.
* The callbacks `onAutoSubmit`, `onTimeUp`, `onWarning` are observed by ghost
  invocation counters stored alongside the state.
-/

namespace ProveIt

/-! ### Integer division helpers

`Math.floor(a / b)` on exact integer operands is floor division, which is
the `Int` division of Lean (`7 / 2 = 3`, `-7 / 2 = -4`).  `Math.ceil` is the
negated floor of the negation. -/

/-- Ceiling division on integers, as produced by `Math.ceil(a / b)`. -/
def jsCeilDiv (a : Int) (b : Nat) : Int := -((-a) / (b : Int))

/-- Floor division on `Int` agrees with the rational floor. -/
theorem intDiv_eq_ratFloor (a : Int) (b : Nat) :
    ⌊((a : ℚ) / (b : ℚ))⌋ = a / (b : Int) :=
  Rat.floor_intCast_div_natCast a b

/-- `jsCeilDiv` agrees with the rational ceiling. -/
theorem jsCeilDiv_eq_ratCeil (a : Int) (b : Nat) :
    ⌈((a : ℚ) / (b : ℚ))⌉ = jsCeilDiv a b := by
  rw [show ((a : ℚ) / (b : ℚ)) = -(((-a : ℤ) : ℚ) / (b : ℚ)) by push_cast; ring,
    Int.ceil_neg, Rat.floor_intCast_div_natCast]
  rfl

/-- Floor commutes with clamping at zero. -/
theorem floor_max_zero (q : ℚ) : ⌊max 0 q⌋ = max 0 ⌊q⌋ := by
  rcases le_total q 0 with h | h
  · have h2 : ⌊q⌋ ≤ 0 := by
      have := Int.floor_le_floor h
      simpa using this
    rw [max_eq_left h, max_eq_left h2]
    exact Int.floor_zero
  · have h2 : (0 : ℤ) ≤ ⌊q⌋ := by
      have := Int.floor_le_floor h
      simpa using this
    rw [max_eq_right h, max_eq_right h2]

/-- Clamping at zero then truncating to `Nat` round-trips to the clamp. -/
theorem toNat_max_zero (a : Int) : (((max 0 a).toNat : Int)) = max 0 a :=
  Int.toNat_of_nonneg (le_max_left 0 a)

/-! ### Deadline tracker — `src/components/QuizTimer.tsx`

The component computes `startTime = new Date(startedAt).getTime()`,
`endTime = startTime + timeLimitMinutes * 60 * 1000`, and on every tick
(`updateTimer`, run once at mount and then from a 1-second interval)
recomputes `remaining = Math.max(0, Math.floor((endTime - now) / 1000))`,
stores it, and compares it for exact equality against the warning
thresholds and zero. -/

def FIVE_MINUTES_IN_SECONDS : Nat := 300

def ONE_MINUTE_IN_SECONDS : Nat := 60

/-- `endTime` of `QuizTimer`, in milliseconds. -/
def endTime (startedAt timeLimitMinutes : Nat) : Nat :=
  startedAt + timeLimitMinutes * 60 * 1000

/-- The value `Math.max(0, Math.floor((endTime - now) / 1000))`, as an
integer prior to the (lossless) narrowing to `Nat`. -/
def remainingInt (startedAt timeLimitMinutes now : Nat) : Int :=
  max 0 (((endTime startedAt timeLimitMinutes : Int) - (now : Int)) / 1000)

/-- The remaining-seconds value computed by one run of `updateTimer`. -/
def timeRemainingAt (startedAt timeLimitMinutes now : Nat) : Nat :=
  (remainingInt startedAt timeLimitMinutes now).toNat

/-- Observable state of one mounted `QuizTimer`: the stored
`timeRemaining`, the surfaced warning message, and ghost counters for the
`onWarning` (per threshold) and `onTimeUp` callback invocations. -/
structure TimerState where
  timeRemaining : Nat
  warningMessage : Option String
  warn5Calls : Nat
  warn1Calls : Nat
  timeUpCalls : Nat
deriving Repr, DecidableEq

def initTimerState : TimerState :=
  { timeRemaining := 0
  , warningMessage := none
  , warn5Calls := 0
  , warn1Calls := 0
  , timeUpCalls := 0 }

/-- One execution of `updateTimer` at wall-clock instant `now`:
recompute `remaining`, store it, fire the five-minute warning when
`remaining === 300`, the one-minute warning when `remaining === 60`, and
`onTimeUp` when `remaining === 0`.  The source keeps no per-threshold
fired flag: each comparison is against the freshly recomputed value. -/
def updateTimer (startedAt timeLimitMinutes now : Nat) (s : TimerState) : TimerState :=
  let remaining := timeRemainingAt startedAt timeLimitMinutes now
  let s1 := { s with timeRemaining := remaining }
  let s2 :=
    if remaining = FIVE_MINUTES_IN_SECONDS then
      { s1 with warningMessage := some "5 minutes remaining!"
              , warn5Calls := s1.warn5Calls + 1 }
    else s1
  let s3 :=
    if remaining = ONE_MINUTE_IN_SECONDS then
      { s2 with warningMessage := some "1 minute remaining!"
              , warn1Calls := s2.warn1Calls + 1 }
    else s2
  if remaining = 0 then { s3 with timeUpCalls := s3.timeUpCalls + 1 } else s3

/-- A whole mounted session of the timer: `updateTimer` runs once at each
of the given wall-clock instants, in order. -/
def runTimer (startedAt timeLimitMinutes : Nat) (ticks : List Nat) : TimerState :=
  ticks.foldl (fun s now => updateTimer startedAt timeLimitMinutes now s) initTimerState

/-- Remaining time as the specification states it: `max(0, D*60 - (T-S))`
with `T - S` taken in (possibly fractional) seconds, expressed in whole
seconds by taking the floor. -/
def specRemainingSeconds (startedAt timeLimitMinutes now : Nat) : Int :=
  ⌊max 0 ((timeLimitMinutes * 60 : ℚ) - ((now : ℚ) - (startedAt : ℚ)) / 1000)⌋

theorem remainingInt_eq_spec (startedAt timeLimitMinutes now : Nat) :
    remainingInt startedAt timeLimitMinutes now =
      specRemainingSeconds startedAt timeLimitMinutes now := by
  unfold remainingInt specRemainingSeconds endTime
  rw [floor_max_zero]
  congr 1
  rw [show ((timeLimitMinutes * 60 : ℚ) - ((now : ℚ) - (startedAt : ℚ)) / 1000)
        = (((startedAt : ℤ) + (timeLimitMinutes : ℤ) * 60 * 1000 - (now : ℤ) : ℤ) : ℚ)
            / ((1000 : ℕ) : ℚ) by push_cast; ring]
  rw [intDiv_eq_ratFloor]
  push_cast
  ring_nf

theorem updateTimer_timeRemaining (startedAt timeLimitMinutes now : Nat) (s : TimerState) :
    (updateTimer startedAt timeLimitMinutes now s).timeRemaining =
      timeRemainingAt startedAt timeLimitMinutes now := by
  unfold updateTimer
  dsimp only
  split <;> split <;> split <;> rfl

theorem updateTimer_warn5 (startedAt timeLimitMinutes now : Nat) (s : TimerState) :
    (updateTimer startedAt timeLimitMinutes now s).warn5Calls =
      s.warn5Calls +
        (if timeRemainingAt startedAt timeLimitMinutes now = FIVE_MINUTES_IN_SECONDS
         then 1 else 0) := by
  unfold updateTimer
  dsimp only
  split <;> split <;> split <;> simp

theorem updateTimer_warn1 (startedAt timeLimitMinutes now : Nat) (s : TimerState) :
    (updateTimer startedAt timeLimitMinutes now s).warn1Calls =
      s.warn1Calls +
        (if timeRemainingAt startedAt timeLimitMinutes now = ONE_MINUTE_IN_SECONDS
         then 1 else 0) := by
  unfold updateTimer
  dsimp only
  split <;> split <;> split <;> simp

theorem updateTimer_timeUp (startedAt timeLimitMinutes now : Nat) (s : TimerState) :
    (updateTimer startedAt timeLimitMinutes now s).timeUpCalls =
      s.timeUpCalls +
        (if timeRemainingAt startedAt timeLimitMinutes now = 0 then 1 else 0) := by
  unfold updateTimer
  dsimp only
  split <;> split <;> split <;> simp

theorem runTimer_aux (startedAt timeLimitMinutes : Nat) (ticks : List Nat) :
    ∀ s : TimerState,
      (ticks.foldl (fun s now => updateTimer startedAt timeLimitMinutes now s) s).warn5Calls
        = s.warn5Calls + (ticks.countP
            (fun T => timeRemainingAt startedAt timeLimitMinutes T == FIVE_MINUTES_IN_SECONDS))
      ∧ (ticks.foldl (fun s now => updateTimer startedAt timeLimitMinutes now s) s).warn1Calls
        = s.warn1Calls + (ticks.countP
            (fun T => timeRemainingAt startedAt timeLimitMinutes T == ONE_MINUTE_IN_SECONDS))
      ∧ (ticks.foldl (fun s now => updateTimer startedAt timeLimitMinutes now s) s).timeUpCalls
        = s.timeUpCalls + (ticks.countP
            (fun T => timeRemainingAt startedAt timeLimitMinutes T == 0)) := by
  induction ticks with
  | nil => intro s; simp
  | cons t ts ih =>
    intro s
    obtain ⟨h5, h1, h0⟩ := ih (updateTimer startedAt timeLimitMinutes t s)
    refine ⟨?_, ?_, ?_⟩ <;>
      simp only [List.foldl_cons, List.countP_cons, h5, h1, h0,
        updateTimer_warn5, updateTimer_warn1, updateTimer_timeUp] <;>
      split <;> simp_all <;> omega

/-- C3: the remaining-seconds value of the deadline tracker is the pure
function `max(0, D*60 - (T-S))` of the wall clock, in whole seconds, never
negative, and the value stored after a tick at instant `T` is independent
of the history of earlier ticks (freeze-immunity). -/
theorem quizTimer_remaining_wall_clock (startedAt timeLimitMinutes now : Nat) :
    ((timeRemainingAt startedAt timeLimitMinutes now : Int)
        = specRemainingSeconds startedAt timeLimitMinutes now)
    ∧ 0 ≤ specRemainingSeconds startedAt timeLimitMinutes now
    ∧ ∀ ticks : List Nat,
        (runTimer startedAt timeLimitMinutes (ticks ++ [now])).timeRemaining
          = timeRemainingAt startedAt timeLimitMinutes now := by
  refine ⟨?_, ?_, ?_⟩
  · rw [← remainingInt_eq_spec]
    exact toNat_max_zero _
  · rw [← remainingInt_eq_spec]
    exact le_max_left 0 _
  · intro ticks
    unfold runTimer
    rw [List.foldl_append]
    simp [updateTimer_timeRemaining]

/-- C4 (amended): the five-minute and one-minute warnings fire at exactly
those ticks at which the freshly recomputed remaining value equals 300
(respectively 60).  There is no per-threshold fired flag, so the number of
firings is the number of such ticks: zero when no tick observes the
threshold value, and more than one when several ticks fall in the same
remaining-second. -/
theorem quizTimer_warning_fires_iff_exact (startedAt timeLimitMinutes : Nat)
    (ticks : List Nat) :
    (runTimer startedAt timeLimitMinutes ticks).warn5Calls
      = ticks.countP (fun T => timeRemainingAt startedAt timeLimitMinutes T == 300)
    ∧ (runTimer startedAt timeLimitMinutes ticks).warn1Calls
      = ticks.countP (fun T => timeRemainingAt startedAt timeLimitMinutes T == 60) := by
  obtain ⟨h5, h1, _⟩ := runTimer_aux startedAt timeLimitMinutes ticks initTimerState
  constructor
  · simpa [runTimer, initTimerState, FIVE_MINUTES_IN_SECONDS] using h5
  · simpa [runTimer, initTimerState, ONE_MINUTE_IN_SECONDS] using h1

/-- C4 counterexample: a session of duration 10 minutes whose ticks land at
299.4 s and 299.9 s after the start (jitter well within a one-second
cadence) recomputes `remaining = 300` at both ticks and fires the
five-minute warning twice, refuting that each warning fires exactly once
under jittery tick cadence. -/
theorem quizTimer_five_minute_warning_double_fires :
    (runTimer 0 10 [299400, 299900]).warn5Calls = 2 := by decide

/-- C5 (amended): the time-up callback fires at exactly those ticks at
which the recomputed remaining value is 0, hence once at the first tick at
or after expiry and again at every later tick: the tracker itself keeps no
latch. -/
theorem quizTimer_time_up_fires_every_zero_tick (startedAt timeLimitMinutes : Nat)
    (ticks : List Nat) :
    (runTimer startedAt timeLimitMinutes ticks).timeUpCalls
      = ticks.countP (fun T => timeRemainingAt startedAt timeLimitMinutes T == 0) := by
  obtain ⟨_, _, h0⟩ := runTimer_aux startedAt timeLimitMinutes ticks initTimerState
  simpa [runTimer, initTimerState] using h0

/-- C5 counterexample: with a one-minute duration, a tick at expiry
(60 s) and a later tick at 61 s both observe `remaining = 0`, so the
time-up callback is invoked twice, refuting that ticks after expiry do not
invoke it again. -/
theorem quizTimer_time_up_refires_after_expiry :
    (runTimer 0 1 [60000, 61000]).timeUpCalls = 2 := by decide

/-! ### Violation monitor — `src/hooks/useLockdown.ts`

Each `useRef` cell and each piece of `useState` state of the hook is one
field of `LockdownState`; the `onAutoSubmit` callback is observed by the
ghost counter `autoSubmitCalls`.  The live re-entry interval together with
`countdownStartRef` is modelled by the optional field `countdownStart`
(present exactly while the interval is scheduled; `clearCountdown` resets
both in the source). -/

def WARNING_DISPLAY_MS : Nat := 5000

def BLUR_SUPPRESS_AFTER_FS_EXIT_MS : Nat := 500

def FULLSCREEN_REENTRY_SECONDS : Nat := 10

def MAX_ENVIRONMENTAL_VIOLATIONS : Nat := 1

/-- Violation kinds that trigger instant auto-submit (the `Set` in the
source, as a list). -/
def INSTANT_SUBMIT_VIOLATIONS : List String :=
  ["paste_attempt", "copy_attempt", "cut_attempt", "drop_attempt", "devtools_attempt"]

/-- One audit-trail record.  `timestamp` abstracts the ISO string to the
millisecond clock value at which the violation was recorded. -/
structure Violation where
  type : String
  timestamp : Nat
  count : Nat
deriving Repr, DecidableEq

/-- State of one mounted `useLockdown` hook. -/
structure LockdownState where
  isFullscreen : Bool
  violations : List Violation
  warning : Option String
  /-- `fullscreenCountdown` React state: displayed seconds, `none` when absent. -/
  fullscreenCountdown : Option Nat
  /-- `graceRef.current`. -/
  grace : Bool
  /-- `violationCountRef.current`: environmental strike counter. -/
  violationCount : Nat
  /-- `eventCountsRef.current`: a `Record<string, number>` as a total map,
  missing keys reading 0 exactly as `(eventCountsRef.current[type] || 0)`. -/
  eventCounts : String → Nat
  /-- `lastFsExitRef.current`. -/
  lastFsExit : Nat
  /-- `countdownStartRef.current` paired with interval liveness:
  `some t` while the re-entry interval is scheduled with anchor `t`. -/
  countdownStart : Option Nat
  /-- `autoSubmittedRef.current`: the at-most-once latch. -/
  autoSubmitted : Bool
  /-- Ghost counter of `onAutoSubmit` invocations. -/
  autoSubmitCalls : Nat

def initLockdownState : LockdownState :=
  { isFullscreen := false
  , violations := []
  , warning := none
  , fullscreenCountdown := none
  , grace := false
  , violationCount := 0
  , eventCounts := fun _ => 0
  , lastFsExit := 0
  , countdownStart := none
  , autoSubmitted := false
  , autoSubmitCalls := 0 }

/-- `triggerAutoSubmit`: return early when the latch is set, otherwise set
it and invoke `onAutoSubmit` (observed by the ghost counter). -/
def triggerAutoSubmit (s : LockdownState) : LockdownState :=
  if s.autoSubmitted then s
  else { s with autoSubmitted := true, autoSubmitCalls := s.autoSubmitCalls + 1 }

/-- `clearCountdown`: cancel the interval, zero the anchor, hide the
displayed countdown. -/
def clearCountdown (s : LockdownState) : LockdownState :=
  { s with countdownStart := none, fullscreenCountdown := none }

/-- `startCountdown` at wall-clock instant `now`: clear any running
countdown, anchor a fresh one at `now`, display the full 10 seconds. -/
def startCountdown (now : Nat) (s : LockdownState) : LockdownState :=
  let s1 := clearCountdown s
  { s1 with countdownStart := some now
          , fullscreenCountdown := some FULLSCREEN_REENTRY_SECONDS }

/-- The value `Math.max(0, Math.ceil(FULLSCREEN_REENTRY_SECONDS - elapsed))`
with `elapsed = (now - countdownStart) / 1000`, computed over milliseconds. -/
def countdownRemaining (start now : Nat) : Nat :=
  (max 0 (jsCeilDiv ((FULLSCREEN_REENTRY_SECONDS : Int) * 1000 - ((now : Int) - (start : Int)))
      1000)).toNat

/-- One firing of the re-entry interval at instant `now`: recompute and
display the remaining value; at zero, stop the countdown and trigger the
auto-submit.  When no countdown is running the interval does not exist, so
nothing happens. -/
def countdownTick (now : Nat) (s : LockdownState) : LockdownState :=
  match s.countdownStart with
  | none => s
  | some start =>
    let remaining := countdownRemaining start now
    let s1 := { s with fullscreenCountdown := some remaining }
    if remaining ≤ 0 then triggerAutoSubmit (clearCountdown s1) else s1

/-- `addViolation` at instant `now`: discard during the grace period;
otherwise bump the per-kind occurrence count, append the audit record,
then either instant-submit (instant class) or apply the one-strike
environmental policy.  The source checks only `graceRef`, not the
submitted latch. -/
def addViolation (type : String) (now : Nat) (s : LockdownState) : LockdownState :=
  if s.grace then s
  else
    let newCount := s.eventCounts type + 1
    let v : Violation := { type := type, timestamp := now, count := newCount }
    let s1 := { s with eventCounts := fun t => if t = type then newCount else s.eventCounts t
                     , violations := s.violations ++ [v] }
    if type ∈ INSTANT_SUBMIT_VIOLATIONS then
      triggerAutoSubmit { s1 with warning := some "Your quiz has been submitted." }
    else
      let s2 := { s1 with violationCount := s1.violationCount + 1 }
      if s2.violationCount > MAX_ENVIRONMENTAL_VIOLATIONS then
        triggerAutoSubmit { s2 with warning := some "Your quiz has been submitted." }
      else
        { s2 with
          warning := some "Warning: leave again and your quiz will be auto-submitted." }

/-- `handleFullscreenChange`: record the new fullscreen flag; on an exit
outside grace, stamp `lastFsExit`, record the violation, and start the
re-entry countdown only while the strike counter (already updated by
`addViolation`) is within the limit; on an entry, clear the countdown. -/
def handleFullscreenChange (fs : Bool) (now : Nat) (s : LockdownState) : LockdownState :=
  let s1 := { s with isFullscreen := fs }
  let s2 :=
    if !fs && !s1.grace then
      let s1a := { s1 with lastFsExit := now }
      let s1b := addViolation "fullscreen_exit" now s1a
      if s1b.violationCount ≤ MAX_ENVIRONMENTAL_VIOLATIONS then startCountdown now s1b
      else s1b
    else s1
  if fs then clearCountdown s2 else s2

/-- `handleVisibilityChange`: a hidden document outside grace is a
`tab_switch` violation. -/
def handleVisibilityChange (hidden : Bool) (now : Nat) (s : LockdownState) : LockdownState :=
  if hidden && !s.grace then addViolation "tab_switch" now s else s

/-- `handleBlur`: suppressed during grace and for a short window after a
fullscreen exit, otherwise a `window_blur` violation. -/
def handleBlur (now : Nat) (s : LockdownState) : LockdownState :=
  if s.grace then s
  else if now - s.lastFsExit < BLUR_SUPPRESS_AFTER_FS_EXIT_MS then s
  else addViolation "window_blur" now s

/-- `enterFullscreen`, success path: `requestFullscreen` resolved, so mark
fullscreen, clear the countdown, and open a fresh grace period (the
`gracePeriodMs` timeout that later clears it is a separate event). -/
def enterFullscreenSuccess (s : LockdownState) : LockdownState :=
  let s1 := { s with isFullscreen := true }
  let s2 := clearCountdown s1
  { s2 with grace := true }

/-- `enterFullscreen`, failure path: `requestFullscreen` rejected, so mark
not-fullscreen and start the re-entry countdown. -/
def enterFullscreenFailure (now : Nat) (s : LockdownState) : LockdownState :=
  startCountdown now { s with isFullscreen := false }

/-- The raw happenings a mounted hook reacts to: host events dispatched to
the registered listeners, firings of the re-entry interval, the two
outcomes of an `enterFullscreen` call, and the expiries of the
grace-period and warning-display timeouts. -/
inductive LockdownEvent where
  | fullscreenChange (fs : Bool) (now : Nat)
  | visibilityChange (hidden : Bool) (now : Nat)
  | windowBlur (now : Nat)
  | pasteAttempt (now : Nat)
  | copyAttempt (now : Nat)
  | cutAttempt (now : Nat)
  | externalDrop (now : Nat)
  | devtoolsShortcut (now : Nat)
  | reentryTick (now : Nat)
  | enterFullscreenOk
  | enterFullscreenFail (now : Nat)
  | graceExpire
  | warningTimeout
deriving Repr, DecidableEq

/-- Dispatch of one incoming event, exactly as the listeners of the hook
process it.  The clipboard, drop and devtools listeners call
`addViolation` with the corresponding kind (after `preventDefault`, which
has no state effect); the grace timeout resets `graceRef`; the warning
timeout clears the transient warning. -/
def step (s : LockdownState) (e : LockdownEvent) : LockdownState :=
  match e with
  | .fullscreenChange fs now => handleFullscreenChange fs now s
  | .visibilityChange hidden now => handleVisibilityChange hidden now s
  | .windowBlur now => handleBlur now s
  | .pasteAttempt now => addViolation "paste_attempt" now s
  | .copyAttempt now => addViolation "copy_attempt" now s
  | .cutAttempt now => addViolation "cut_attempt" now s
  | .externalDrop now => addViolation "drop_attempt" now s
  | .devtoolsShortcut now => addViolation "devtools_attempt" now s
  | .reentryTick now => countdownTick now s
  | .enterFullscreenOk => enterFullscreenSuccess s
  | .enterFullscreenFail now => enterFullscreenFailure now s
  | .graceExpire => { s with grace := false }
  | .warningTimeout => { s with warning := none }

/-- A whole session of the monitor: the ordered stream of events applied
to the freshly mounted state. -/
def runLockdown (events : List LockdownEvent) : LockdownState :=
  events.foldl step initLockdownState

/-! ### The at-most-once latch -/

/-- The latch invariant: the callback has been invoked at most once, and
not at all while the latch is still unset. -/
def SubmitLatchInv (s : LockdownState) : Prop :=
  s.autoSubmitCalls ≤ 1 ∧ (s.autoSubmitted = false → s.autoSubmitCalls = 0)

theorem triggerAutoSubmit_inv (s : LockdownState) (h : SubmitLatchInv s) :
    SubmitLatchInv (triggerAutoSubmit s) := by
  unfold triggerAutoSubmit SubmitLatchInv at *
  split
  · exact h
  · rename_i hns
    simp only [Bool.not_eq_true] at hns
    have h0 : s.autoSubmitCalls = 0 := h.2 (by simpa using hns)
    simp [h0]

/-- A state whose two latch fields agree with those of another state
satisfies the latch invariant whenever the other one does. -/
theorem inv_of_fields (s s' : LockdownState)
    (hb : s'.autoSubmitted = s.autoSubmitted)
    (hc : s'.autoSubmitCalls = s.autoSubmitCalls)
    (h : SubmitLatchInv s) : SubmitLatchInv s' := by
  unfold SubmitLatchInv at *
  rw [hb, hc]
  exact h

theorem addViolation_inv (type : String) (now : Nat) (s : LockdownState)
    (h : SubmitLatchInv s) : SubmitLatchInv (addViolation type now s) := by
  unfold addViolation
  dsimp only
  split
  · exact h
  · split
    · exact triggerAutoSubmit_inv _ (inv_of_fields s _ rfl rfl h)
    · split
      · exact triggerAutoSubmit_inv _ (inv_of_fields s _ rfl rfl h)
      · exact inv_of_fields s _ rfl rfl h

theorem countdownTick_inv (now : Nat) (s : LockdownState)
    (h : SubmitLatchInv s) : SubmitLatchInv (countdownTick now s) := by
  unfold countdownTick
  cases hc : s.countdownStart with
  | none => exact h
  | some start =>
    dsimp only
    split
    · exact triggerAutoSubmit_inv _ (inv_of_fields s _ rfl rfl h)
    · exact inv_of_fields s _ rfl rfl h

theorem handleFullscreenChange_inv (fs : Bool) (now : Nat) (s : LockdownState)
    (h : SubmitLatchInv s) : SubmitLatchInv (handleFullscreenChange fs now s) := by
  have hv : SubmitLatchInv
      (addViolation "fullscreen_exit" now
        { s with isFullscreen := fs, lastFsExit := now }) :=
    addViolation_inv _ _ _ (inv_of_fields s _ rfl rfl h)
  unfold handleFullscreenChange
  dsimp only
  split_ifs <;>
    first
      | exact inv_of_fields _ _ rfl rfl hv
      | exact inv_of_fields s _ rfl rfl h

theorem step_inv (s : LockdownState) (e : LockdownEvent)
    (h : SubmitLatchInv s) : SubmitLatchInv (step s e) := by
  cases e with
  | fullscreenChange fs now => exact handleFullscreenChange_inv fs now s h
  | visibilityChange hidden now =>
    show SubmitLatchInv (handleVisibilityChange hidden now s)
    unfold handleVisibilityChange
    split
    · exact addViolation_inv "tab_switch" now s h
    · exact h
  | windowBlur now =>
    show SubmitLatchInv (handleBlur now s)
    unfold handleBlur
    split
    · exact h
    · split
      · exact h
      · exact addViolation_inv "window_blur" now s h
  | pasteAttempt now => exact addViolation_inv "paste_attempt" now s h
  | copyAttempt now => exact addViolation_inv "copy_attempt" now s h
  | cutAttempt now => exact addViolation_inv "cut_attempt" now s h
  | externalDrop now => exact addViolation_inv "drop_attempt" now s h
  | devtoolsShortcut now => exact addViolation_inv "devtools_attempt" now s h
  | reentryTick now => exact countdownTick_inv now s h
  | enterFullscreenOk => exact inv_of_fields s _ rfl rfl h
  | enterFullscreenFail now =>
    show SubmitLatchInv (enterFullscreenFailure now s)
    exact inv_of_fields s _ rfl rfl h
  | graceExpire => exact inv_of_fields s _ rfl rfl h
  | warningTimeout => exact inv_of_fields s _ rfl rfl h

theorem foldl_step_inv (events : List LockdownEvent) :
    ∀ s : LockdownState, SubmitLatchInv s → SubmitLatchInv (events.foldl step s) := by
  induction events with
  | nil => intro s hs; exact hs
  | cons e es ih => intro s hs; exact ih (step s e) (step_inv s e hs)

/-- C1: over every possible ordered stream of incoming events and timer
ticks, the forced-submission callback is invoked at most once; any trigger
arriving after the latch is set is a no-op on the invocation count. -/
theorem lockdown_auto_submit_at_most_once (events : List LockdownEvent) :
    (runLockdown events).autoSubmitCalls ≤ 1 :=
  (foldl_step_inv events initLockdownState
    (by constructor <;> simp [initLockdownState])).1

/-- With the latch already set, `triggerAutoSubmit` is the identity. -/
theorem triggerAutoSubmit_post_latch (s : LockdownState) (h : s.autoSubmitted = true) :
    triggerAutoSubmit s = s := by
  unfold triggerAutoSubmit
  simp [h]

theorem triggerAutoSubmit_violations (s : LockdownState) :
    (triggerAutoSubmit s).violations = s.violations := by
  unfold triggerAutoSubmit
  split <;> rfl

theorem triggerAutoSubmit_violationCount (s : LockdownState) :
    (triggerAutoSubmit s).violationCount = s.violationCount := by
  unfold triggerAutoSubmit
  split <;> rfl

theorem triggerAutoSubmit_calls_of_latched (s : LockdownState)
    (h : s.autoSubmitted = true) :
    (triggerAutoSubmit s).autoSubmitCalls = s.autoSubmitCalls
    ∧ (triggerAutoSubmit s).autoSubmitted = true := by
  unfold triggerAutoSubmit
  rw [if_pos h]
  exact ⟨rfl, h⟩

/-- With the latch set, `addViolation` never changes the two latch fields. -/
theorem addViolation_post_latch (type : String) (now : Nat) (s : LockdownState)
    (h : s.autoSubmitted = true) :
    (addViolation type now s).autoSubmitCalls = s.autoSubmitCalls
    ∧ (addViolation type now s).autoSubmitted = true := by
  unfold addViolation
  dsimp only
  split
  · exact ⟨rfl, h⟩
  · split
    · exact triggerAutoSubmit_calls_of_latched _ h
    · split
      · exact triggerAutoSubmit_calls_of_latched _ h
      · exact ⟨rfl, h⟩

/-- With the latch set, no event changes the two latch fields. -/
theorem step_post_latch (s : LockdownState) (e : LockdownEvent)
    (h : s.autoSubmitted = true) :
    (step s e).autoSubmitCalls = s.autoSubmitCalls
    ∧ (step s e).autoSubmitted = true := by
  cases e with
  | fullscreenChange fs now =>
    show (handleFullscreenChange fs now s).autoSubmitCalls = s.autoSubmitCalls
      ∧ (handleFullscreenChange fs now s).autoSubmitted = true
    have hv := addViolation_post_latch "fullscreen_exit" now
      { s with isFullscreen := fs, lastFsExit := now } h
    unfold handleFullscreenChange
    dsimp only
    split_ifs <;> first | exact hv | exact ⟨rfl, h⟩
  | visibilityChange hidden now =>
    show (handleVisibilityChange hidden now s).autoSubmitCalls = s.autoSubmitCalls
      ∧ (handleVisibilityChange hidden now s).autoSubmitted = true
    unfold handleVisibilityChange
    split
    · exact addViolation_post_latch "tab_switch" now s h
    · exact ⟨rfl, h⟩
  | windowBlur now =>
    show (handleBlur now s).autoSubmitCalls = s.autoSubmitCalls
      ∧ (handleBlur now s).autoSubmitted = true
    unfold handleBlur
    split
    · exact ⟨rfl, h⟩
    · split
      · exact ⟨rfl, h⟩
      · exact addViolation_post_latch "window_blur" now s h
  | pasteAttempt now => exact addViolation_post_latch "paste_attempt" now s h
  | copyAttempt now => exact addViolation_post_latch "copy_attempt" now s h
  | cutAttempt now => exact addViolation_post_latch "cut_attempt" now s h
  | externalDrop now => exact addViolation_post_latch "drop_attempt" now s h
  | devtoolsShortcut now => exact addViolation_post_latch "devtools_attempt" now s h
  | reentryTick now =>
    show (countdownTick now s).autoSubmitCalls = s.autoSubmitCalls
      ∧ (countdownTick now s).autoSubmitted = true
    unfold countdownTick
    cases hc : s.countdownStart with
    | none => exact ⟨rfl, h⟩
    | some start =>
      dsimp only
      split
      · exact triggerAutoSubmit_calls_of_latched _ h
      · exact ⟨rfl, h⟩
  | enterFullscreenOk => exact ⟨rfl, h⟩
  | enterFullscreenFail now => exact ⟨rfl, h⟩
  | graceExpire => exact ⟨rfl, h⟩
  | warningTimeout => exact ⟨rfl, h⟩

/-- C2 counterexample: after a `copy_attempt` sets the latch (one audit
record, strike counter 0), a later `tab_switch` is still processed: a
second audit record is appended, the environmental strike counter rises to
1, and a fresh warning message is surfaced — refuting that post-latch
events are discarded with no state change. -/
theorem lockdown_post_latch_event_still_recorded :
    (runLockdown [.copyAttempt 1000]).autoSubmitted = true
    ∧ (runLockdown [.copyAttempt 1000]).violations.length = 1
    ∧ (runLockdown [.copyAttempt 1000]).violationCount = 0
    ∧ (runLockdown [.copyAttempt 1000, .visibilityChange true 2000]).violations.length = 2
    ∧ (runLockdown [.copyAttempt 1000, .visibilityChange true 2000]).violationCount = 1
    ∧ (runLockdown [.copyAttempt 1000, .visibilityChange true 2000]).warning
        = some "Warning: leave again and your quiz will be auto-submitted." :=
  ⟨rfl, rfl, rfl, rfl, rfl, rfl⟩

/-- C2 (amended): after the submitted latch is true, no further
forced-submission callback is invoked and the latch stays set, but
subsequent events are not discarded: outside the grace period they are
still recorded — in particular a `tab_switch` still appends its audit
record (and, being environmental, still moves the strike counter). -/
theorem lockdown_latch_blocks_callback_only (s : LockdownState) (e : LockdownEvent)
    (h : s.autoSubmitted = true) :
    (step s e).autoSubmitCalls = s.autoSubmitCalls
    ∧ (step s e).autoSubmitted = true
    ∧ (∀ now : Nat, s.grace = false →
        (step s (.visibilityChange true now)).violations
          = s.violations
              ++ [{ type := "tab_switch", timestamp := now
                  , count := s.eventCounts "tab_switch" + 1 }]
          ∧ (step s (.visibilityChange true now)).violationCount
              = s.violationCount + 1) := by
  obtain ⟨hc, hb⟩ := step_post_latch s e h
  refine ⟨hc, hb, ?_⟩
  intro now hg
  show (handleVisibilityChange true now s).violations = _
    ∧ (handleVisibilityChange true now s).violationCount = _
  unfold handleVisibilityChange
  rw [if_pos (by simp [hg])]
  unfold addViolation
  rw [if_neg (by simp [hg])]
  dsimp only
  rw [if_neg (show ¬ ("tab_switch" ∈ INSTANT_SUBMIT_VIOLATIONS) by decide)]
  split
  · exact ⟨(triggerAutoSubmit_violations _).trans rfl,
      (triggerAutoSubmit_violationCount _).trans rfl⟩
  · exact ⟨rfl, rfl⟩

/-- Witness for the amended C2 at a concrete latched state: after a
`copy_attempt` the latch is set, and a subsequent `window_blur` event
leaves the callback count unchanged. -/
theorem lockdown_latch_blocks_callback_only_witness :
    (runLockdown [.copyAttempt 0]).autoSubmitted = true
    ∧ (step (runLockdown [.copyAttempt 0]) (.windowBlur 600)).autoSubmitCalls
        = (runLockdown [.copyAttempt 0]).autoSubmitCalls :=
  ⟨rfl, (lockdown_latch_blocks_callback_only (runLockdown [.copyAttempt 0])
    (.windowBlur 600) rfl).1⟩

/-- C6: an instant-class violation processed outside the grace period is
recorded (the audit record appended in the same logical step) and leaves
the state terminally submitted, with the callback invoked when the latch
was not yet set; no countdown is started or touched. -/
theorem instant_violation_forces_submit (s : LockdownState) (type : String) (now : Nat)
    (hg : s.grace = false) (ht : type ∈ INSTANT_SUBMIT_VIOLATIONS) :
    (addViolation type now s).autoSubmitted = true
    ∧ (addViolation type now s).violations
        = s.violations ++ [{ type := type, timestamp := now
                           , count := s.eventCounts type + 1 }]
    ∧ (addViolation type now s).countdownStart = s.countdownStart
    ∧ (addViolation type now s).fullscreenCountdown = s.fullscreenCountdown
    ∧ (addViolation type now s).violationCount = s.violationCount
    ∧ (s.autoSubmitted = false →
        (addViolation type now s).autoSubmitCalls = s.autoSubmitCalls + 1) := by
  unfold addViolation
  rw [if_neg (by simp [hg])]
  dsimp only
  rw [if_pos ht]
  unfold triggerAutoSubmit
  dsimp only
  split
  · rename_i hs
    exact ⟨hs, rfl, rfl, rfl, rfl, fun hf => absurd hs (by simp [hf])⟩
  · exact ⟨rfl, rfl, rfl, rfl, rfl, fun _ => rfl⟩

/-- Witness for C6 at the freshly mounted state: the very first event of
the session being a `copy_attempt` immediately sets the terminal state. -/
theorem instant_violation_forces_submit_witness :
    initLockdownState.grace = false
    ∧ "copy_attempt" ∈ INSTANT_SUBMIT_VIOLATIONS
    ∧ (addViolation "copy_attempt" 5 initLockdownState).autoSubmitted = true :=
  ⟨rfl, by decide,
    (instant_violation_forces_submit initLockdownState "copy_attempt" 5 rfl
      (by decide)).1⟩

/-- Outside grace, a non-instant violation always moves the strike
counter up by one, in every branch of `addViolation`. -/
theorem addViolation_env_count (type : String) (now : Nat) (s : LockdownState)
    (hg : s.grace = false) (hti : type ∉ INSTANT_SUBMIT_VIOLATIONS) :
    (addViolation type now s).violationCount = s.violationCount + 1 := by
  unfold addViolation
  rw [if_neg (by simp [hg])]
  dsimp only
  rw [if_neg hti]
  split
  · exact (triggerAutoSubmit_violationCount _).trans rfl
  · rfl

/-- Outside grace and below the latch, an environmental violation arriving
with the strike counter already at the limit sets the latch, invokes the
callback once, and leaves the countdown fields untouched. -/
theorem addViolation_env_strike2 (type : String) (now : Nat) (s : LockdownState)
    (hg : s.grace = false) (hti : type ∉ INSTANT_SUBMIT_VIOLATIONS)
    (h1 : s.violationCount = MAX_ENVIRONMENTAL_VIOLATIONS)
    (hsub : s.autoSubmitted = false) :
    (addViolation type now s).autoSubmitted = true
    ∧ (addViolation type now s).autoSubmitCalls = s.autoSubmitCalls + 1
    ∧ (addViolation type now s).countdownStart = s.countdownStart
    ∧ (addViolation type now s).fullscreenCountdown = s.fullscreenCountdown := by
  unfold addViolation
  rw [if_neg (by simp [hg])]
  dsimp only
  rw [if_neg hti]
  rw [if_pos (by simp [h1, MAX_ENVIRONMENTAL_VIOLATIONS])]
  unfold triggerAutoSubmit
  rw [if_neg (by simp [hsub])]
  exact ⟨rfl, rfl, rfl, rfl⟩

/-- A second-strike `fullscreen_exit`, processed by the full handler,
sets the latch and invokes the callback without starting a countdown:
the strike counter is already past the limit when the handler checks it. -/
theorem handleFullscreenChange_strike2 (now : Nat) (s : LockdownState)
    (hg : s.grace = false) (h1 : s.violationCount = MAX_ENVIRONMENTAL_VIOLATIONS)
    (hsub : s.autoSubmitted = false) :
    (handleFullscreenChange false now s).autoSubmitted = true
    ∧ (handleFullscreenChange false now s).autoSubmitCalls = s.autoSubmitCalls + 1
    ∧ (handleFullscreenChange false now s).countdownStart = s.countdownStart := by
  have hfe : ("fullscreen_exit" : String) ∉ INSTANT_SUBMIT_VIOLATIONS := by decide
  have hcount := addViolation_env_count "fullscreen_exit" now
    { s with isFullscreen := false, lastFsExit := now } hg hfe
  have hstrike := addViolation_env_strike2 "fullscreen_exit" now
    { s with isFullscreen := false, lastFsExit := now } hg hfe h1 hsub
  unfold handleFullscreenChange
  dsimp only
  have hmid : (!false && !s.grace) = true := by simp [hg]
  have hinner : ¬ ((addViolation "fullscreen_exit" now
      { s with isFullscreen := false, lastFsExit := now }).violationCount
        ≤ MAX_ENVIRONMENTAL_VIOLATIONS) := by
    rw [hcount]
    simp [h1, MAX_ENVIRONMENTAL_VIOLATIONS]
  rw [if_neg (show ¬ (false = true) by simp), if_pos hmid, if_neg hinner]
  exact ⟨hstrike.1, hstrike.2.1, hstrike.2.2.1⟩

/-- C7: outside the grace period and before the latch, the first
environmental violation of the session only surfaces the transient
warning (no submission, no callback), while an environmental violation
arriving with the strike counter already at its limit of 1 sets the latch
and invokes the callback; no countdown is started in that escalation —
`addViolation` never touches the countdown fields and even the
`fullscreen_exit` handler skips `startCountdown` on the second strike. -/
theorem environmental_strike_policy (s : LockdownState) (type : String) (now : Nat)
    (ht : type = "fullscreen_exit" ∨ type = "tab_switch" ∨ type = "window_blur")
    (hg : s.grace = false) (hsub : s.autoSubmitted = false) :
    (s.violationCount = 0 →
      (addViolation type now s).autoSubmitted = false
      ∧ (addViolation type now s).autoSubmitCalls = s.autoSubmitCalls
      ∧ (addViolation type now s).warning
          = some "Warning: leave again and your quiz will be auto-submitted."
      ∧ (addViolation type now s).violationCount = 1)
    ∧ (s.violationCount = MAX_ENVIRONMENTAL_VIOLATIONS →
      ((addViolation type now s).autoSubmitted = true
      ∧ (addViolation type now s).autoSubmitCalls = s.autoSubmitCalls + 1
      ∧ (addViolation type now s).countdownStart = s.countdownStart
      ∧ (addViolation type now s).fullscreenCountdown = s.fullscreenCountdown)
      ∧ ((handleFullscreenChange false now s).autoSubmitted = true
      ∧ (handleFullscreenChange false now s).autoSubmitCalls = s.autoSubmitCalls + 1
      ∧ (handleFullscreenChange false now s).countdownStart = s.countdownStart)) := by
  have hti : type ∉ INSTANT_SUBMIT_VIOLATIONS := by
    rcases ht with h1 | h1 | h1 <;> subst h1 <;> decide
  constructor
  · intro h0
    unfold addViolation
    rw [if_neg (by simp [hg])]
    dsimp only
    rw [if_neg hti]
    rw [if_neg (by simp [h0, MAX_ENVIRONMENTAL_VIOLATIONS])]
    exact ⟨hsub, rfl, rfl, by simp [h0]⟩
  · intro h1
    exact ⟨addViolation_env_strike2 type now s hg hti h1 hsub,
      handleFullscreenChange_strike2 now s hg h1 hsub⟩

/-- Witness for C7: from the freshly mounted state a first `tab_switch`
only warns, and after it (strike counter at the limit) a `window_blur`
sets the latch. -/
theorem environmental_strike_policy_witness :
    ((addViolation "tab_switch" 1 initLockdownState).autoSubmitted = false
      ∧ (addViolation "tab_switch" 1 initLockdownState).warning
          = some "Warning: leave again and your quiz will be auto-submitted.")
    ∧ (addViolation "tab_switch" 1 initLockdownState).violationCount
        = MAX_ENVIRONMENTAL_VIOLATIONS
    ∧ (addViolation "window_blur" 2
        (addViolation "tab_switch" 1 initLockdownState)).autoSubmitted = true :=
  ⟨⟨((environmental_strike_policy initLockdownState "tab_switch" 1
        (Or.inr (Or.inl rfl)) rfl rfl).1 rfl).1,
    ((environmental_strike_policy initLockdownState "tab_switch" 1
        (Or.inr (Or.inl rfl)) rfl rfl).1 rfl).2.2.1⟩,
   rfl,
   (((environmental_strike_policy (addViolation "tab_switch" 1 initLockdownState)
        "window_blur" 2 (Or.inr (Or.inr rfl)) rfl rfl).2 rfl).1).1⟩

/-- C8: the re-entry countdown value at any wall-clock instant is
`max(0, ceil(10 - (now - countdownStart)))` in seconds — never negative by
construction — and a tick of the running countdown fires the terminal
trigger exactly when that value has reached 0 (never before 10 full
wall-clock seconds have elapsed), stopping the countdown and invoking the
callback through the latch. -/
theorem reentry_countdown_wall_clock (start now : Nat) :
    ((countdownRemaining start now : Int)
        = max 0 ⌈(FULLSCREEN_REENTRY_SECONDS : ℚ) - ((now : ℚ) - (start : ℚ)) / 1000⌉)
    ∧ (countdownRemaining start now = 0 ↔ start + 10000 ≤ now)
    ∧ ∀ s : LockdownState, s.countdownStart = some start →
        ((0 < countdownRemaining start now →
          (countdownTick now s).fullscreenCountdown = some (countdownRemaining start now)
          ∧ (countdownTick now s).countdownStart = some start
          ∧ (countdownTick now s).autoSubmitCalls = s.autoSubmitCalls
          ∧ (countdownTick now s).autoSubmitted = s.autoSubmitted)
        ∧ (countdownRemaining start now = 0 →
          (countdownTick now s).countdownStart = none
          ∧ (countdownTick now s).fullscreenCountdown = none
          ∧ (countdownTick now s).autoSubmitted = true
          ∧ (s.autoSubmitted = false →
              (countdownTick now s).autoSubmitCalls = s.autoSubmitCalls + 1))) := by
  have hQ : (FULLSCREEN_REENTRY_SECONDS : ℚ) - ((now : ℚ) - (start : ℚ)) / 1000
      = (((FULLSCREEN_REENTRY_SECONDS : ℤ) * 1000 - ((now : ℤ) - (start : ℤ)) : ℤ) : ℚ)
          / ((1000 : ℕ) : ℚ) := by
    push_cast
    ring
  refine ⟨?_, ?_, ?_⟩
  · unfold countdownRemaining
    rw [toNat_max_zero, hQ, jsCeilDiv_eq_ratCeil]
  · unfold countdownRemaining
    rw [Int.toNat_eq_zero]
    have h1 : (max 0 (jsCeilDiv ((FULLSCREEN_REENTRY_SECONDS : Int) * 1000
          - ((now : Int) - (start : Int))) 1000)) ≤ 0
        ↔ jsCeilDiv ((FULLSCREEN_REENTRY_SECONDS : Int) * 1000
          - ((now : Int) - (start : Int))) 1000 ≤ 0 := by
      simp [max_le_iff]
    rw [h1]
    unfold jsCeilDiv
    rw [neg_nonpos]
    rw [show (0 : ℤ) ≤ -((FULLSCREEN_REENTRY_SECONDS : Int) * 1000
          - ((now : Int) - (start : Int))) / ((1000 : ℕ) : ℤ)
        ↔ 0 * 1000 ≤ -((FULLSCREEN_REENTRY_SECONDS : Int) * 1000
          - ((now : Int) - (start : Int)))
      from Int.le_ediv_iff_mul_le (by norm_num)]
    unfold FULLSCREEN_REENTRY_SECONDS
    push_cast
    omega
  · intro s hs
    unfold countdownTick
    rw [hs]
    dsimp only
    constructor
    · intro hpos
      rw [if_neg (by omega)]
      exact ⟨rfl, rfl, rfl, rfl⟩
    · intro hzero
      rw [if_pos (by omega)]
      unfold triggerAutoSubmit clearCountdown
      dsimp only
      split
      · rename_i hsub
        exact ⟨rfl, rfl, hsub, fun hf => absurd hsub (by simp [hf])⟩
      · exact ⟨rfl, rfl, rfl, fun _ => rfl⟩

/-- Witness for C8: a countdown anchored at 0 observed by a tick at 12 s
has remaining value 0 and the tick sets the latch; the countdown stops. -/
theorem reentry_countdown_wall_clock_witness :
    (startCountdown 0 initLockdownState).countdownStart = some 0
    ∧ countdownRemaining 0 12000 = 0
    ∧ (countdownTick 12000 (startCountdown 0 initLockdownState)).autoSubmitted = true
    ∧ (countdownTick 12000 (startCountdown 0 initLockdownState)).countdownStart = none :=
  ⟨rfl, by decide,
    (((reentry_countdown_wall_clock 0 12000).2.2 (startCountdown 0 initLockdownState)
      rfl).2 (by decide)).2.2.1,
    (((reentry_countdown_wall_clock 0 12000).2.2 (startCountdown 0 initLockdownState)
      rfl).2 (by decide)).1⟩

/-- C9: re-entering fullscreen (the successful `enterFullscreen` path, and
likewise the `fullscreenchange` notification reporting fullscreen) cancels
the countdown — the exposed value becomes absent — and the success path
opens a new grace period, while the audit trail, the environmental strike
counter and the latch state are all left unchanged and no callback fires. -/
theorem fullscreen_reentry_cancels_countdown (s : LockdownState) (now : Nat) :
    ((enterFullscreenSuccess s).fullscreenCountdown = none
    ∧ (enterFullscreenSuccess s).countdownStart = none
    ∧ (enterFullscreenSuccess s).grace = true
    ∧ (enterFullscreenSuccess s).isFullscreen = true
    ∧ (enterFullscreenSuccess s).violations = s.violations
    ∧ (enterFullscreenSuccess s).violationCount = s.violationCount
    ∧ (enterFullscreenSuccess s).autoSubmitted = s.autoSubmitted
    ∧ (enterFullscreenSuccess s).autoSubmitCalls = s.autoSubmitCalls)
    ∧ ((handleFullscreenChange true now s).fullscreenCountdown = none
    ∧ (handleFullscreenChange true now s).countdownStart = none
    ∧ (handleFullscreenChange true now s).violations = s.violations
    ∧ (handleFullscreenChange true now s).violationCount = s.violationCount
    ∧ (handleFullscreenChange true now s).autoSubmitted = s.autoSubmitted
    ∧ (handleFullscreenChange true now s).autoSubmitCalls = s.autoSubmitCalls) := by
  refine ⟨⟨rfl, rfl, rfl, rfl, rfl, rfl, rfl, rfl⟩, ?_⟩
  unfold handleFullscreenChange
  simp [clearCountdown]

/-! ### Entry gate — `detectMobileDevice` and the `LockdownQuiz` mount -/

/-- `detectMobileDevice` from `src/hooks/useLockdown.ts`: a known mobile
user-agent signature, or touch capability (`navigator.maxTouchPoints > 0`)
together with a small display (`window.screen.width < 1024`).  The
`typeof navigator` guard is the browser-present case and is always passed
in the embedded environment. -/
def detectMobileDevice (maxTouchPoints screenWidth : Nat) (mobileUA : Bool) : Bool :=
  mobileUA || (decide (0 < maxTouchPoints) && decide (screenWidth < 1024))

/-- What the `LockdownQuiz` view does at mount, observable per concern. -/
structure MountOutcome where
  showsBlockingScreen : Bool
  attemptsFullscreen : Bool
  trackingEnabled : Bool
deriving Repr, DecidableEq

/-- Mount behaviour of `LockdownQuiz` (`src/pages/LockdownQuiz.tsx`) for a
valid session.  The hook calls run before any conditional return:
`useLockdown` is invoked with `enabled := true` unconditionally, so the
violation listeners are installed whatever the device class; the mount
effect registered before the render gate invokes `enterFullscreen()` after
the first commit regardless of which branch was rendered (React runs
every registered effect of a mounted component); the `isMobileDevice`
flag, computed once at mount, only selects whether the blocking screen or
the assessment is rendered. -/
def lockdownQuizMount (isMobileDevice : Bool) : MountOutcome :=
  { showsBlockingScreen := isMobileDevice
  , attemptsFullscreen := true
  , trackingEnabled := true }

/-- C10 counterexample: a device classified as unsupported (touch-capable,
small display, mobile user-agent) is shown the blocking screen, yet the
mount still attempts to engage fullscreen and the violation listeners are
still installed — refuting that the monitor never attempts fullscreen and
never begins tracking on an unsupported device. -/
theorem mobile_device_still_enforced :
    detectMobileDevice 5 800 true = true
    ∧ (lockdownQuizMount (detectMobileDevice 5 800 true)).showsBlockingScreen = true
    ∧ (lockdownQuizMount (detectMobileDevice 5 800 true)).attemptsFullscreen = true
    ∧ (lockdownQuizMount (detectMobileDevice 5 800 true)).trackingEnabled = true := by
  decide

/-- C10 (amended): the one-shot capability check gates only rendering —
the blocking screen replaces the assessment exactly when the check
classifies the device as unsupported — while the mount effect still calls
`enterFullscreen` and the violation listeners are installed with
`enabled = true` on every device class. -/
theorem mobile_gate_render_only (maxTouchPoints screenWidth : Nat) (mobileUA : Bool) :
    (lockdownQuizMount (detectMobileDevice maxTouchPoints screenWidth
        mobileUA)).showsBlockingScreen
      = detectMobileDevice maxTouchPoints screenWidth mobileUA
    ∧ (lockdownQuizMount (detectMobileDevice maxTouchPoints screenWidth
        mobileUA)).attemptsFullscreen = true
    ∧ (lockdownQuizMount (detectMobileDevice maxTouchPoints screenWidth
        mobileUA)).trackingEnabled = true :=
  ⟨rfl, rfl, rfl⟩

end ProveIt
